import Mathlib

/-!
# Verification of `ray_tracing__advance/hello_vulkan.cpp`

A shallow embedding, in Lean 4, of the scene-to-GPU resource binding system
and the frame-accumulation state machine of `HelloVulkan`
(`src/ray_tracing__advance/hello_vulkan.cpp`), together with theorems that
settle the specification claims about them.

Modelling conventions:
* GPU buffer and image handles are `Nat` identifiers drawn from a fresh-handle
  counter (`allocNext`); the device-side contents of a buffer are not modelled
  (they are opaque to the host code under verification).
* `nvmath::mat4f` used for instance transforms is modelled as a 4x4 matrix of
  rationals; `nvmath::invert` is modelled as the adjugate-based matrix inverse.
* The camera view matrix compared by `memcmp` in `updateFrame` is modelled by
  its byte image, a `List Nat`; byte-for-byte inequality is list inequality.
  The field of view, compared with float `!=`, is modelled as a rational.
* Fallible texture decoding (`stbi_load`) is a parameter
  `decode : String → Option (Nat × Nat × List Pixel)`.
-/

set_option autoImplicit false

namespace HelloVulkan

/-- A GPU buffer or image handle (`VkBuffer` / `VkImage`), as an identifier. -/
abbrev Buf := Nat

/-- A 4x4 transform matrix (`nvmath::mat4f`) over the rationals. -/
abbrev Mat4 := Matrix (Fin 4) (Fin 4) ℚ

/-- `nvmath::invert` on 4x4 matrices, modelled as the adjugate-based inverse
`det(A)⁻¹ • adj(A)` (the true matrix inverse whenever `A` is invertible). -/
def invert (A : Mat4) : Mat4 := (A.det)⁻¹ • A.adjugate

/-! ## Frame accumulation controller (`updateFrame` / `resetFrame` / `raytrace`) -/

/-- The byte image of the `nvmath::mat4f` camera view matrix, as compared by
`memcmp(&refCamMatrix.a00, &m.a00, sizeof(nvmath::mat4f))`. -/
abbrev Mat4Bytes := List Nat

/-- The persistent state read and written by `HelloVulkan::updateFrame`: the
function-local statics `refCamMatrix` and `refFov`, and the accumulation
counter `m_pushConstants.frame` (a C `int`, hence `Int`). -/
structure FrameState where
  refCamMatrix : Mat4Bytes
  refFov : ℚ
  frame : Int
deriving DecidableEq

/-- `HelloVulkan::resetFrame`: sets `m_pushConstants.frame = -1`. -/
def resetFrame (s : FrameState) : FrameState :=
  { s with frame := -1 }

/-- `HelloVulkan::updateFrame`, given the current camera matrix bytes `m` and
field of view `fov` polled from `CameraManip`. Returns the new state together
with a flag recording whether `resetFrame` was called on this tick.

Mirrors the source: if `memcmp` over the matrix bytes is nonzero or
`refFov != fov`, call `resetFrame()` and record the new reference matrix and
fov; in every case, finish with `m_pushConstants.frame++` (the unconditional
final increment is inlined into both branches of the comparison). -/
def updateFrame (s : FrameState) (m : Mat4Bytes) (fov : ℚ) : FrameState × Bool :=
  if m ≠ s.refCamMatrix ∨ fov ≠ s.refFov then
    let s1 := { resetFrame s with refCamMatrix := m, refFov := fov }
    ({ s1 with frame := s1.frame + 1 }, true)
  else
    ({ s with frame := s.frame + 1 }, false)

/-- `HelloVulkan::raytrace`, restricted to its accumulation gate: it first
calls `updateFrame()`, then returns without dispatching when
`m_pushConstants.frame >= m_maxFrames`, and otherwise delegates the ray-trace
dispatch. The returned flag records whether the dispatch was issued. -/
def raytraceTick (maxFrames : Int) (s : FrameState) (m : Mat4Bytes) (fov : ℚ) :
    FrameState × Bool :=
  let s' := (updateFrame s m fov).1
  if s'.frame ≥ maxFrames then (s', false) else (s', true)

/-- The scenario state after `k` render ticks with the camera constantly equal
to `(m, fov)`, starting from the post-reset reference state whose frame
counter is `-1` (the value `resetFrame` leaves before the first increment).
The `Bool` component records whether the `k`-th tick issued the ray-trace
dispatch. -/
def simulateTicks (maxFrames : Int) (m : Mat4Bytes) (fov : ℚ) : Nat → FrameState × Bool
  | 0 => (⟨m, fov, -1⟩, false)
  | k + 1 => raytraceTick maxFrames (simulateTicks maxFrames m fov k).1 m fov

lemma updateFrame_unchanged (s : FrameState) :
    updateFrame s s.refCamMatrix s.refFov = ({ s with frame := s.frame + 1 }, false) := by
  simp [updateFrame]

lemma simulateTicks_frame (maxFrames : Int) (m : Mat4Bytes) (fov : ℚ) (k : Nat) :
    (simulateTicks maxFrames m fov k).1 = ⟨m, fov, -1 + k⟩ := by
  induction k with
  | zero => simp [simulateTicks]
  | succ k ih =>
      have h : updateFrame (⟨m, fov, -1 + k⟩ : FrameState) m fov
          = (⟨m, fov, (-1 + k) + 1⟩, false) := updateFrame_unchanged ⟨m, fov, -1 + k⟩
      simp only [simulateTicks, raytraceTick, ih, h]
      split <;> simp [add_comm, add_assoc, add_left_comm]

lemma simulateTicks_dispatch (maxFrames : Int) (m : Mat4Bytes) (fov : ℚ) (k : Nat) :
    (simulateTicks maxFrames m fov (k + 1)).2 = decide (¬ ((-1 + (k + 1) : Int) ≥ maxFrames)) := by
  have h := simulateTicks_frame maxFrames m fov k
  have e : (-1 + ((k : Int) + 1)) = (-1 + (k : Int)) + 1 := by ring
  simp only [simulateTicks, raytraceTick, h,
    updateFrame_unchanged (⟨m, fov, -1 + k⟩ : FrameState)]
  by_cases hge : maxFrames ≤ (k : Int)
  · simp [hge, not_lt.mpr hge]
  · simp [hge, lt_of_not_le hge]

/-! ## Scene data model (resource registry) -/

/-- A 3-component vector (`nvmath::vec3f`) over the rationals. -/
abbrev Vec3 := ℚ × ℚ × ℚ

/-- `nvmath` componentwise vector-minus-scalar, as in `center - radius`. -/
def vsubScalar (v : Vec3) (r : ℚ) : Vec3 := (v.1 - r, v.2.1 - r, v.2.2 - r)

/-- `nvmath` componentwise vector-plus-scalar, as in `center + radius`. -/
def vaddScalar (v : Vec3) (r : ℚ) : Vec3 := (v.1 + r, v.2.1 + r, v.2.2 + r)

/-- Modelled from the spec: the material record (`MaterialObj`, declared in the
external OBJ-loader header, which is not among the sources under verification).
The claims inspect only material counts and the default-constructed placeholder
value, so the record is modelled by a diffuse color and a texture id, with the
default-constructed value as `default`. -/
structure MaterialObj where
  diffuse : Vec3
  textureID : Int
  deriving DecidableEq

instance : Inhabited MaterialObj := ⟨⟨(0, 0, 0), 0⟩⟩

/-- The implicit-primitive type tag (`EObjType`). -/
inductive EObjType where
  | eSphere
  | eCube
  deriving DecidableEq

/-- An implicit primitive (`ObjImplicit`): axis-aligned bounds, type tag and
material id. -/
structure ObjImplicit where
  minimum : Vec3
  maximum : Vec3
  objType : EObjType
  matId : Int
  deriving DecidableEq

instance : Inhabited ObjImplicit :=
  ⟨⟨(0, 0, 0), (0, 0, 0), EObjType.eSphere, 0⟩⟩

/-- A loaded triangle-mesh model (`ObjModel`): element counts and the four GPU
buffer handles created by `loadModel`. -/
structure ObjModel where
  nbIndices : Nat
  nbVertices : Nat
  vertexBuffer : Buf
  indexBuffer : Buf
  matColorBuffer : Buf
  matIndexBuffer : Buf
  deriving DecidableEq

/-- A placed occurrence of a model (`ObjInstance`). -/
structure ObjInstance where
  objIndex : Nat
  transform : Mat4
  transformIT : Mat4
  txtOffset : Nat

/-- One RGBA8 pixel value. -/
abbrev Pixel := Nat × Nat × Nat × Nat

/-- A texture (`nvvk::Texture`): its image handle and the host-side image data
it was created from (dimensions and pixels). -/
structure Texture where
  id : Buf
  width : Nat
  height : Nat
  pixels : List Pixel
  deriving DecidableEq

/-- The implicit-object aggregate (`ImplInst`): the implicit-primitive and
implicit-material sequences and the two buffers uploaded from them. -/
structure ImplObjects where
  objImpl : List ObjImplicit
  implMat : List MaterialObj
  implBuf : Buf
  implMatBuf : Buf
  deriving DecidableEq

/-- The mutable `HelloVulkan` scene state relevant to the claims: the
fresh-GPU-handle counter and the registry sequences and buffers. -/
structure HV where
  allocNext : Nat
  objModel : List ObjModel
  objInstance : List ObjInstance
  textures : List Texture
  implObjects : ImplObjects
  cameraMat : Buf
  sceneDesc : Buf

/-- The initial (freshly constructed) `HelloVulkan` state: empty registries,
null buffer handles. -/
def hvInit : HV :=
  ⟨0, [], [], [], ⟨[], [], 0, 0⟩, 0, 0⟩

/-- The result of the external OBJ loader (`ObjLoader` after `loadModel`):
vertices, indices, materials, per-triangle material indices and texture file
names. -/
structure ObjLoaderOut where
  vertices : List Vec3
  indices : List Nat
  materials : List MaterialObj
  matIndx : List Nat
  textures : List String

/-- The 1x1 fully-opaque-white dummy texture created by `createTextureImages`
when the scene has no textures, with image handle `h`. -/
def dummyTexture (h : Buf) : Texture :=
  ⟨h, 1, 1, [(255, 255, 255, 255)]⟩

/-- The 1x1 magenta fallback pixel data substituted when `stbi_load` fails. -/
def fallbackPixels : List Pixel := [(255, 0, 255, 255)]

/-- `HelloVulkan::createTextureImages`: given the decoder, the fresh-handle
counter, the current texture sequence `mTextures` (`m_textures`) and the mesh's
texture file names, returns the new counter and texture sequence.

Mirrors the source: if both the name list and `m_textures` are empty, push one
1x1 opaque-white dummy texture; otherwise decode and push one texture per name,
substituting a 1x1 magenta image when decoding fails. -/
def createTextureImages (decode : String → Option (Nat × Nat × List Pixel))
    (allocNext : Nat) (mTextures : List Texture) (names : List String) :
    Nat × List Texture :=
  if names = [] ∧ mTextures = [] then
    (allocNext + 1, mTextures ++ [dummyTexture allocNext])
  else
    names.foldl
      (fun acc n =>
        match decode n with
        | some (w, h, px) => (acc.1 + 1, acc.2 ++ [⟨acc.1, w, h, px⟩])
        | none => (acc.1 + 1, acc.2 ++ [⟨acc.1, 1, 1, fallbackPixels⟩]))
      (allocNext, mTextures)

/-- `HelloVulkan::loadModel`: builds the instance (with `objIndex` the current
model count, the inverse-transpose of the transform, and `txtOffset` the
current texture count), creates the four model buffers, creates the mesh's
textures, and appends exactly one model and one instance.

Buffer handles are drawn in the source's creation order: vertex, index,
material-color, material-index, then any texture images. The device-side
buffer contents (including the gamma-to-linear conversion of material colors
before upload) are not modelled, since the host state does not observe them. -/
def loadModel (decode : String → Option (Nat × Nat × List Pixel))
    (s : HV) (loader : ObjLoaderOut) (transform : Mat4) : HV :=
  let inst : ObjInstance :=
    ⟨s.objModel.length, transform, (invert transform).transpose, s.textures.length⟩
  let model : ObjModel :=
    ⟨loader.indices.length, loader.vertices.length,
     s.allocNext, s.allocNext + 1, s.allocNext + 2, s.allocNext + 3⟩
  let tex := createTextureImages decode (s.allocNext + 4) s.textures loader.textures
  { s with
    allocNext := tex.1
    objModel := s.objModel ++ [model]
    objInstance := s.objInstance ++ [inst]
    textures := tex.2 }

/-- `HelloVulkan::createUniformBuffer`: allocates the camera-matrix buffer. -/
def createUniformBuffer (s : HV) : HV :=
  { s with allocNext := s.allocNext + 1, cameraMat := s.allocNext }

/-- `HelloVulkan::createSceneDescriptionBuffer`: uploads the instance sequence
into one storage buffer. -/
def createSceneDescriptionBuffer (s : HV) : HV :=
  { s with allocNext := s.allocNext + 1, sceneDesc := s.allocNext }

/-- `HelloVulkan::addImplSphere`: appends the sphere, stored as its bounding
box `center ± radius`, to the implicit-primitive sequence. -/
def addImplSphere (s : HV) (center : Vec3) (radius : ℚ) (matId : Int) : HV :=
  let impl : ObjImplicit :=
    ⟨vsubScalar center radius, vaddScalar center radius, EObjType.eSphere, matId⟩
  { s with implObjects := { s.implObjects with objImpl := s.implObjects.objImpl ++ [impl] } }

/-- `HelloVulkan::addImplCube`: appends the box to the implicit-primitive
sequence. -/
def addImplCube (s : HV) (minimum maximum : Vec3) (matId : Int) : HV :=
  let impl : ObjImplicit := ⟨minimum, maximum, EObjType.eCube, matId⟩
  { s with implObjects := { s.implObjects with objImpl := s.implObjects.objImpl ++ [impl] } }

/-- `HelloVulkan::addImplMaterial`: appends to the implicit-material
sequence. -/
def addImplMaterial (s : HV) (mat : MaterialObj) : HV :=
  { s with implObjects := { s.implObjects with implMat := s.implObjects.implMat ++ [mat] } }

/-- `HelloVulkan::createImplictBuffers`: inserts one default-valued
(`push_back({})`) entry into the implicit-primitive sequence and into the
implicit-material sequence when the respective sequence is empty, then uploads
each sequence into a freshly created buffer. -/
def createImplictBuffers (s : HV) : HV :=
  let objImpl :=
    if s.implObjects.objImpl = [] then s.implObjects.objImpl ++ [default]
    else s.implObjects.objImpl
  let implMat :=
    if s.implObjects.implMat = [] then s.implObjects.implMat ++ [default]
    else s.implObjects.implMat
  { s with
    allocNext := s.allocNext + 2
    implObjects := ⟨objImpl, implMat, s.allocNext, s.allocNext + 1⟩ }

/-! ## Descriptor binding builder (`createDescriptorSetLayout` / `updateDescriptorSet`) -/

/-- One descriptor-set layout binding as recorded by
`nvvk::DescriptorSetBindings::addBinding`: the binding index and its declared
descriptor count. -/
structure LayoutBinding where
  binding : Nat
  descriptorCount : Nat
  deriving DecidableEq

/-- `HelloVulkan::createDescriptorSetLayout`, as the list of `addBinding`
calls it issues, with `nbTxt = m_textures.size()` and
`nbObj = m_objModel.size()` snapshotted at call time. -/
def createDescriptorSetLayoutBindings (nbTxt nbObj : Nat) : List LayoutBinding :=
  [⟨0, 1⟩, ⟨1, nbObj + 1⟩, ⟨2, 1⟩, ⟨3, nbTxt⟩, ⟨4, nbObj⟩, ⟨5, nbObj⟩, ⟨6, nbObj⟩, ⟨7, 1⟩]

/-- A descriptor entry handed to a write: a `VkDescriptorBufferInfo` referring
to a buffer, or a `VkDescriptorImageInfo` referring to a texture image. -/
inductive DescInfo where
  | buffer (b : Buf)
  | image (i : Buf)
  deriving DecidableEq

/-- One `VkWriteDescriptorSet` as produced by `makeWrite`/`makeWriteArray`:
the destination binding, the descriptor count taken from the layout
declaration, and the host-side descriptor array actually supplied. -/
structure WriteDesc where
  binding : Nat
  descriptorCount : Nat
  provided : List DescInfo
  deriving DecidableEq

/-- The descriptor count `makeWriteArray` reads back from the recorded layout
binding with the given index (`0` standing for the asserted-unreachable
"binding not found" case). -/
def declaredCount (layout : List LayoutBinding) (b : Nat) : Nat :=
  ((layout.find? (fun lb => lb.binding == b)).map (fun lb => lb.descriptorCount)).getD 0

/-- `nvvk::DescriptorSetBindings::makeWrite`/`makeWriteArray`: a write whose
`descriptorCount` is the one declared in the layout for that binding, and
whose data pointer is the supplied host array. No length check is performed. -/
def makeWrite (layout : List LayoutBinding) (b : Nat) (provided : List DescInfo) : WriteDesc :=
  ⟨b, declaredCount layout b, provided⟩

/-- The four per-model descriptor-info vectors accumulated by the loop in
`updateDescriptorSet` (`dbiMat`, `dbiMatIdx`, `dbiVert`, `dbiIdx`). -/
structure Dbis where
  dbiMat : List DescInfo
  dbiMatIdx : List DescInfo
  dbiVert : List DescInfo
  dbiIdx : List DescInfo
  deriving DecidableEq

/-- The body of the `for(auto& m : m_objModel)` loop of `updateDescriptorSet`,
pushing one entry per model into each of the four vectors. -/
def dbisStep (a : Dbis) (m : ObjModel) : Dbis :=
  ⟨a.dbiMat ++ [DescInfo.buffer m.matColorBuffer],
   a.dbiMatIdx ++ [DescInfo.buffer m.matIndexBuffer],
   a.dbiVert ++ [DescInfo.buffer m.vertexBuffer],
   a.dbiIdx ++ [DescInfo.buffer m.indexBuffer]⟩

/-- The `for(auto& m : m_objModel)` loop of `updateDescriptorSet`. -/
def modelDbis (models : List ObjModel) : Dbis :=
  models.foldl dbisStep ⟨[], [], [], []⟩

/-- `HelloVulkan::updateDescriptorSet`: the list of descriptor writes handed
to `vkUpdateDescriptorSets`, in the source's emission order. The material
array (binding 1) is the per-model loop result with the implicit-material
buffer appended at the end. -/
def updateDescriptorSet (layout : List LayoutBinding) (s : HV) : List WriteDesc :=
  let d := modelDbis s.objModel
  let dbiMat := d.dbiMat ++ [DescInfo.buffer s.implObjects.implMatBuf]
  [makeWrite layout 0 [DescInfo.buffer s.cameraMat],
   makeWrite layout 2 [DescInfo.buffer s.sceneDesc],
   makeWrite layout 1 dbiMat,
   makeWrite layout 4 d.dbiMatIdx,
   makeWrite layout 5 d.dbiVert,
   makeWrite layout 6 d.dbiIdx,
   makeWrite layout 3 (s.textures.map (fun t => DescInfo.image t.id)),
   makeWrite layout 7 [DescInfo.buffer s.implObjects.implBuf]]

/-- The write aimed at binding `b` among the issued writes. -/
def writeFor (ws : List WriteDesc) (b : Nat) : Option WriteDesc :=
  ws.find? (fun w => w.binding == b)

/-! ## Render dispatcher: rasterization path (`rasterize`) -/

/-- One indexed draw recorded by the rasterization loop: the pushed constants
(instance ordinal and current frame counter), the bound buffers, and the index
count drawn. -/
structure DrawCmd where
  instanceId : Nat
  frame : Int
  vertexBuffer : Buf
  indexBuffer : Buf
  indexCount : Nat
  deriving DecidableEq

/-- `HelloVulkan::rasterize`: one push-constants/bind/draw triple per instance,
in instance-sequence order, with no gate on the frame counter. `frame` is the
current `m_pushConstants.frame` value carried inside the pushed constant
block. -/
def rasterize (s : HV) (frame : Int) : List DrawCmd :=
  (List.range s.objInstance.length).map
    (fun i =>
      let inst := s.objInstance.getD i ⟨0, 1, 1, 0⟩
      let model := s.objModel.getD inst.objIndex ⟨0, 0, 0, 0, 0, 0⟩
      ⟨i, frame, model.vertexBuffer, model.indexBuffer, model.nbIndices⟩)

/-! ## Teardown (`destroyResources`) -/

/-- One resource-release event issued by `destroyResources`. -/
inductive Resource where
  | pipeline
  | pipelineLayout
  | descPool
  | descSetLayout
  | buffer (b : Buf)
  | image (i : Buf)
  | offscreenTeardown
  | raytraceTeardown
  deriving DecidableEq

/-- `HelloVulkan::destroyResources`: the sequence of release events in the
source's statement order — pipeline, pipeline layout, descriptor pool,
descriptor set layout, the camera/scene/implicit buffers, the four buffers of
each model, every texture image, and finally the offscreen and ray-tracing
component teardowns. -/
def destroyResources (s : HV) : List Resource :=
  let es := [Resource.pipeline]
  let es := es ++ [Resource.pipelineLayout]
  let es := es ++ [Resource.descPool]
  let es := es ++ [Resource.descSetLayout]
  let es := es ++ [Resource.buffer s.cameraMat]
  let es := es ++ [Resource.buffer s.sceneDesc]
  let es := es ++ [Resource.buffer s.implObjects.implBuf]
  let es := es ++ [Resource.buffer s.implObjects.implMatBuf]
  let es := s.objModel.foldl
    (fun acc m =>
      acc ++ [Resource.buffer m.vertexBuffer, Resource.buffer m.indexBuffer,
              Resource.buffer m.matColorBuffer, Resource.buffer m.matIndexBuffer])
    es
  let es := s.textures.foldl (fun acc t => acc ++ [Resource.image t.id]) es
  es ++ [Resource.offscreenTeardown, Resource.raytraceTeardown]

/-- Classifies a release event as a layout destruction. -/
def isLayoutRes : Resource → Bool
  | Resource.pipelineLayout => true
  | Resource.descSetLayout => true
  | _ => false

/-- Classifies a release event as a pool destruction. -/
def isPoolRes : Resource → Bool
  | Resource.descPool => true
  | _ => false

/-- Classifies a release event as a buffer destruction. -/
def isBufferRes : Resource → Bool
  | Resource.buffer _ => true
  | _ => false

/-- Classifies a release event as a texture-image destruction. -/
def isImageRes : Resource → Bool
  | Resource.image _ => true
  | _ => false

/-- Every event satisfying `p` occurs strictly before every event satisfying
`q` in the event list `es`. -/
def eventsBefore (p q : Resource → Bool) (es : List Resource) : Prop :=
  ∀ i : Fin es.length, ∀ j : Fin es.length,
    p (es.get i) = true → q (es.get j) = true → (i : Nat) < (j : Nat)

instance (p q : Resource → Bool) (es : List Resource) :
    Decidable (eventsBefore p q es) := by
  unfold eventsBefore
  infer_instance

/-- The release ordering asserted by the spec for `destroyResources`:
pipeline first, then every layout, then every pool, then all buffers, then all
texture images. -/
def specTeardownOrder (es : List Resource) : Prop :=
  es.head? = some Resource.pipeline ∧
  eventsBefore isLayoutRes isPoolRes es ∧
  eventsBefore isPoolRes isBufferRes es ∧
  eventsBefore isBufferRes isImageRes es

instance (es : List Resource) : Decidable (specTeardownOrder es) := by
  unfold specTeardownOrder
  infer_instance

/-! ## Claim theorems: frame accumulation -/

/-- C2: `updateFrame` triggers `resetFrame` on a tick if and only if the
current camera view matrix differs byte-for-byte from the stored reference
matrix or the current field of view is not exactly equal to the stored
reference fov; a tick whose camera state is identical to the stored reference
never triggers a reset. -/
theorem updateFrame_reset_iff (s : FrameState) (m : Mat4Bytes) (fov : ℚ) :
    ((updateFrame s m fov).2 = true ↔ (m ≠ s.refCamMatrix ∨ fov ≠ s.refFov)) ∧
    (updateFrame s s.refCamMatrix s.refFov).2 = false := by
  constructor
  · unfold updateFrame
    split <;> simp_all
  · simp [updateFrame]

/-- C4: on every tick `updateFrame` increments the frame counter by exactly 1
after the camera comparison; on a tick where the camera changed the counter is
first set to `-1` by `resetFrame` and then incremented, so the tick ends with
frame `0`; on a tick without reset the counter increases by 1, hence is
monotonically non-decreasing between resets. -/
theorem updateFrame_increment (s : FrameState) (m : Mat4Bytes) (fov : ℚ) :
    ((updateFrame s m fov).1.frame
        = (if (updateFrame s m fov).2 = true then -1 else s.frame) + 1) ∧
    ((updateFrame s m fov).2 = true → (updateFrame s m fov).1.frame = 0) ∧
    ((updateFrame s m fov).2 = false →
      (updateFrame s m fov).1.frame = s.frame + 1 ∧
        s.frame ≤ (updateFrame s m fov).1.frame) := by
  unfold updateFrame resetFrame
  split <;> simp_all

/-- Witness for C4 at concrete inputs: a changed camera ends the tick at frame
`0`, and an unchanged camera increments `5` to `6`. -/
theorem updateFrame_increment_witness :
    ((updateFrame ⟨[0], 1, 5⟩ [1] 1).2 = true → (updateFrame ⟨[0], 1, 5⟩ [1] 1).1.frame = 0) ∧
    (updateFrame ⟨[0], 1, 5⟩ [1] 1).1.frame = 0 ∧
    (updateFrame ⟨[0], 1, 5⟩ [0] 1).1.frame = 5 + 1 := by
  refine ⟨(updateFrame_increment ⟨[0], 1, 5⟩ [1] 1).2.1, ?_, ?_⟩
  · exact (updateFrame_increment ⟨[0], 1, 5⟩ [1] 1).2.1 (by decide)
  · exact ((updateFrame_increment ⟨[0], 1, 5⟩ [0] 1).2.2 (by decide)).1

/-- C3: with the camera unchanged and `maxFrames = 100`, starting from the
post-reset state (frame `-1`), the ray-trace dispatch is issued on ticks 1
through 100 and skipped on every tick from 101 onward; `rasterize` has no such
gate and emits one draw per instance regardless of the frame counter. -/
theorem raytrace_gate_scenario :
    (∀ k : Nat, 1 ≤ k → k ≤ 100 → ∀ (m : Mat4Bytes) (fov : ℚ),
        (simulateTicks 100 m fov k).2 = true) ∧
    (∀ k : Nat, 101 ≤ k → ∀ (m : Mat4Bytes) (fov : ℚ),
        (simulateTicks 100 m fov k).2 = false) ∧
    (∀ (s : HV) (frame : Int), (rasterize s frame).length = s.objInstance.length) := by
  refine ⟨?_, ?_, ?_⟩
  · intro k h1 h2 m fov
    obtain ⟨j, rfl⟩ : ∃ j, k = j + 1 := ⟨k - 1, by omega⟩
    rw [simulateTicks_dispatch]
    simp only [decide_eq_true_eq]
    omega
  · intro k h1 m fov
    obtain ⟨j, rfl⟩ : ∃ j, k = j + 1 := ⟨k - 1, by omega⟩
    rw [simulateTicks_dispatch]
    simp only [decide_eq_false_iff_not, Classical.not_not]
    omega
  · intro s frame
    simp [rasterize]

/-- Witness for C3 at concrete ticks: tick 100 dispatches, tick 101 does not,
and rasterization of the empty scene draws its zero instances at any frame. -/
theorem raytrace_gate_scenario_witness :
    (simulateTicks 100 [0] 1 100).2 = true ∧
    (simulateTicks 100 [0] 1 101).2 = false ∧
    (rasterize hvInit 7).length = hvInit.objInstance.length :=
  ⟨raytrace_gate_scenario.1 100 (by decide) (by decide) [0] 1,
   raytrace_gate_scenario.2.1 101 (by decide) [0] 1,
   raytrace_gate_scenario.2.2 hvInit 7⟩

/-! ## Claim theorems: implicit primitives and buffers -/

/-- C9: `addImplSphere center radius matId` appends exactly one entry to the
implicit-primitive sequence, with minimum bound `center - radius`, maximum
bound `center + radius`, the sphere type tag, and material id `matId`; every
other component of the state is unchanged (in particular no entry is ever
removed). -/
theorem addImplSphere_spec (s : HV) (center : Vec3) (radius : ℚ) (matId : Int) :
    (addImplSphere s center radius matId).implObjects.objImpl
        = s.implObjects.objImpl ++
          [⟨vsubScalar center radius, vaddScalar center radius, EObjType.eSphere, matId⟩] ∧
    (addImplSphere s center radius matId).implObjects.objImpl.length
        = s.implObjects.objImpl.length + 1 ∧
    (addImplSphere s center radius matId).implObjects.implMat = s.implObjects.implMat ∧
    (addImplSphere s center radius matId).implObjects.implBuf = s.implObjects.implBuf ∧
    (addImplSphere s center radius matId).implObjects.implMatBuf = s.implObjects.implMatBuf ∧
    (addImplSphere s center radius matId).objModel = s.objModel ∧
    (addImplSphere s center radius matId).objInstance = s.objInstance ∧
    (addImplSphere s center radius matId).textures = s.textures ∧
    (addImplSphere s center radius matId).allocNext = s.allocNext ∧
    (addImplSphere s center radius matId).cameraMat = s.cameraMat ∧
    (addImplSphere s center radius matId).sceneDesc = s.sceneDesc := by
  simp [addImplSphere]

/-- C7: `createImplictBuffers` leaves both backing sequences non-empty before
upload: an empty implicit-primitive or implicit-material sequence receives
exactly one default-valued entry, and a non-empty sequence is left unchanged;
in particular, after adding two implicit spheres and zero implicit materials,
the material sequence is exactly one default placeholder. -/
theorem createImplictBuffers_nonempty (s : HV) :
    ((createImplictBuffers s).implObjects.objImpl ≠ [] ∧
     (createImplictBuffers s).implObjects.implMat ≠ []) ∧
    (s.implObjects.objImpl = [] →
      (createImplictBuffers s).implObjects.objImpl = [default]) ∧
    (s.implObjects.objImpl ≠ [] →
      (createImplictBuffers s).implObjects.objImpl = s.implObjects.objImpl) ∧
    (s.implObjects.implMat = [] →
      (createImplictBuffers s).implObjects.implMat = [default]) ∧
    (s.implObjects.implMat ≠ [] →
      (createImplictBuffers s).implObjects.implMat = s.implObjects.implMat) ∧
    (∀ (c1 c2 : Vec3) (r1 r2 : ℚ) (m1 m2 : Int),
      (createImplictBuffers
          (addImplSphere (addImplSphere hvInit c1 r1 m1) c2 r2 m2)).implObjects.implMat
        = [default]) := by
  refine ⟨⟨?_, ?_⟩, ?_, ?_, ?_, ?_, ?_⟩
  all_goals
    simp only [createImplictBuffers, addImplSphere, hvInit]
  · split <;> simp_all
  · split <;> simp_all
  · intro h
    simp [h]
  · intro h
    simp [h]
  · intro h
    simp [h]
  · intro h
    simp [h]
  · intro c1 c2 r1 r2 m1 m2
    simp

/-- Witness for C7 at the initial state: both sequences become exactly one
default placeholder. -/
theorem createImplictBuffers_nonempty_witness :
    (createImplictBuffers hvInit).implObjects.objImpl = [default] ∧
    (createImplictBuffers hvInit).implObjects.implMat = [default] :=
  ⟨(createImplictBuffers_nonempty hvInit).2.1 rfl,
   (createImplictBuffers_nonempty hvInit).2.2.2.1 rfl⟩

/-! ## Claim theorems: descriptor binding builder -/

lemma foldl_dbisStep (models : List ObjModel) (a : Dbis) :
    models.foldl dbisStep a =
      ⟨a.dbiMat ++ models.map (fun m => DescInfo.buffer m.matColorBuffer),
       a.dbiMatIdx ++ models.map (fun m => DescInfo.buffer m.matIndexBuffer),
       a.dbiVert ++ models.map (fun m => DescInfo.buffer m.vertexBuffer),
       a.dbiIdx ++ models.map (fun m => DescInfo.buffer m.indexBuffer)⟩ := by
  induction models generalizing a with
  | nil => simp
  | cons x xs ih => simp [List.foldl, dbisStep, ih]

lemma modelDbis_eq (models : List ObjModel) :
    modelDbis models =
      ⟨models.map (fun m => DescInfo.buffer m.matColorBuffer),
       models.map (fun m => DescInfo.buffer m.matIndexBuffer),
       models.map (fun m => DescInfo.buffer m.vertexBuffer),
       models.map (fun m => DescInfo.buffer m.indexBuffer)⟩ := by
  simp [modelDbis, foldl_dbisStep]

/-- C1: for every scene state with `N` loaded models, the material-buffer
array written at binding 1 has length exactly `N + 1`, its first `N` entries
are the models' material-color buffers in model-sequence order and its last
entry is the implicit-material buffer; the arrays written at bindings 4, 5
and 6 have length `N` and are ordered identically to the model sequence. -/
theorem updateDescriptorSet_binding_arrays (layout : List LayoutBinding) (s : HV) :
    ((writeFor (updateDescriptorSet layout s) 1).map (fun w => w.provided)
        = some (s.objModel.map (fun m => DescInfo.buffer m.matColorBuffer)
            ++ [DescInfo.buffer s.implObjects.implMatBuf])) ∧
    ((writeFor (updateDescriptorSet layout s) 1).map (fun w => w.provided.length)
        = some (s.objModel.length + 1)) ∧
    ((writeFor (updateDescriptorSet layout s) 4).map (fun w => w.provided)
        = some (s.objModel.map (fun m => DescInfo.buffer m.matIndexBuffer))) ∧
    ((writeFor (updateDescriptorSet layout s) 5).map (fun w => w.provided)
        = some (s.objModel.map (fun m => DescInfo.buffer m.vertexBuffer))) ∧
    ((writeFor (updateDescriptorSet layout s) 6).map (fun w => w.provided)
        = some (s.objModel.map (fun m => DescInfo.buffer m.indexBuffer))) ∧
    ((writeFor (updateDescriptorSet layout s) 4).map (fun w => w.provided.length)
        = some s.objModel.length) ∧
    ((writeFor (updateDescriptorSet layout s) 5).map (fun w => w.provided.length)
        = some s.objModel.length) ∧
    ((writeFor (updateDescriptorSet layout s) 6).map (fun w => w.provided.length)
        = some s.objModel.length) := by
  simp [updateDescriptorSet, writeFor, makeWrite, modelDbis_eq, List.find?]

/-- A scene state holding one loaded model, paired below with a descriptor-set
layout created before that model was loaded. -/
def staleScene : HV :=
  ⟨6, [⟨3, 3, 0, 1, 2, 3⟩], [], [], ⟨[], [], 4, 5⟩, 0, 0⟩

/-- Counterexample to C6: with a layout whose counts were snapshotted from an
empty registry and a state holding one model, `updateDescriptorSet` issues its
writes without any length check — the binding-1 write carries a host array of
length 2 against a declared descriptor count of 1, so a length mismatch does
not abort before the GPU boundary. -/
theorem updateDescriptorSet_no_assert_cex :
    ((updateDescriptorSet (createDescriptorSetLayoutBindings 0 0) staleScene).all
        (fun w => w.provided.length == w.descriptorCount) = false) ∧
    ((writeFor (updateDescriptorSet (createDescriptorSetLayoutBindings 0 0) staleScene) 1).map
        (fun w => (w.provided.length, w.descriptorCount)) = some (2, 1)) := by
  decide

/-- C6 (amended): `updateDescriptorSet` performs no length assertion; instead,
whenever the layout's counts were snapshotted from the same registry contents
(`nbTxt = m_textures.size()` and `nbObj = m_objModel.size()` at update time),
every descriptor array it writes has length equal to the declared binding
count by construction. -/
theorem updateDescriptorSet_lengths_match_fresh_layout (s : HV) :
    (updateDescriptorSet
        (createDescriptorSetLayoutBindings s.textures.length s.objModel.length) s).all
      (fun w => w.provided.length == w.descriptorCount) = true := by
  simp [updateDescriptorSet, makeWrite, modelDbis_eq, declaredCount,
    createDescriptorSetLayoutBindings, List.find?, List.all]

/-! ## Claim theorems: model loading and textures -/

lemma createTextureImages_dummy (decode : String → Option (Nat × Nat × List Pixel))
    (alloc : Nat) :
    createTextureImages decode alloc [] [] = (alloc + 1, [dummyTexture alloc]) := by
  simp [createTextureImages]

lemma createTextureImages_noNames (decode : String → Option (Nat × Nat × List Pixel))
    (alloc : Nat) (mT : List Texture) (h : mT ≠ []) :
    createTextureImages decode alloc mT [] = (alloc, mT) := by
  simp [createTextureImages, h]

lemma loadModel_textures_first (decode : String → Option (Nat × Nat × List Pixel))
    (s : HV) (loader : ObjLoaderOut) (T : Mat4)
    (hs : s.textures = []) (hl : loader.textures = []) :
    (loadModel decode s loader T).textures = [dummyTexture (s.allocNext + 4)] := by
  simp [loadModel, hs, hl, createTextureImages_dummy]

lemma loadModel_textures_rest (decode : String → Option (Nat × Nat × List Pixel))
    (s : HV) (loader : ObjLoaderOut) (T : Mat4)
    (hs : s.textures ≠ []) (hl : loader.textures = []) :
    (loadModel decode s loader T).textures = s.textures := by
  simp [loadModel, hl, createTextureImages_noNames decode (s.allocNext + 4) s.textures hs]

/-- Scene setup: `loadModel` once per mesh of the scene, from the freshly
constructed state. -/
def loadScene (decode : String → Option (Nat × Nat × List Pixel))
    (meshes : List (ObjLoaderOut × Mat4)) : HV :=
  meshes.foldl (fun s lm => loadModel decode s lm.1 lm.2) hvInit

lemma loadScene_textures_aux (decode : String → Option (Nat × Nat × List Pixel))
    (meshes : List (ObjLoaderOut × Mat4)) :
    ∀ s : HV, s.textures ≠ [] → (∀ lm ∈ meshes, lm.1.textures = []) →
      (meshes.foldl (fun s lm => loadModel decode s lm.1 lm.2) s).textures = s.textures := by
  induction meshes with
  | nil =>
      intro s _ _
      rfl
  | cons x xs ih =>
      intro s hs hz
      have hx : x.1.textures = [] := hz x (List.mem_cons_self x xs)
      have h1 : (loadModel decode s x.1 x.2).textures = s.textures :=
        loadModel_textures_rest decode s x.1 x.2 hs hx
      simp only [List.foldl_cons]
      rw [ih (loadModel decode s x.1 x.2) (by rw [h1]; exact hs)
          (fun lm hm => hz lm (List.mem_cons_of_mem x hm))]
      exact h1

/-- C5: for every scene whose loaded models reference zero textures, the
texture sequence after setup is exactly one texture, a 1x1 image whose single
pixel is fully-opaque white. -/
theorem zero_texture_scene_dummy (decode : String → Option (Nat × Nat × List Pixel))
    (meshes : List (ObjLoaderOut × Mat4))
    (hne : meshes ≠ []) (hz : ∀ lm ∈ meshes, lm.1.textures = []) :
    ∃ h : Buf, (loadScene decode meshes).textures = [dummyTexture h] := by
  cases meshes with
  | nil => exact absurd rfl hne
  | cons x xs =>
      refine ⟨4, ?_⟩
      have hx : x.1.textures = [] := hz x (List.mem_cons_self x xs)
      have h1 : (loadModel decode hvInit x.1 x.2).textures = [dummyTexture 4] :=
        loadModel_textures_first decode hvInit x.1 x.2 rfl hx
      simp only [loadScene, List.foldl_cons]
      rw [loadScene_textures_aux decode xs (loadModel decode hvInit x.1 x.2)
          (by rw [h1]; simp)
          (fun lm hm => hz lm (List.mem_cons_of_mem x hm))]
      exact h1

/-- A texture decoder that always fails, for concrete witness scenes. -/
def decodeNone : String → Option (Nat × Nat × List Pixel) := fun _ => none

/-- The OBJ-loader result of a mesh with no vertices, indices, materials or
textures. -/
def emptyLoader : ObjLoaderOut := ⟨[], [], [], [], []⟩

/-- Witness for C5: a one-mesh scene referencing no textures ends setup with
exactly the 1x1 opaque-white dummy texture. -/
theorem zero_texture_scene_dummy_witness :
    ∃ h : Buf, (loadScene decodeNone [(emptyLoader, (1 : Mat4))]).textures = [dummyTexture h] :=
  zero_texture_scene_dummy decodeNone [(emptyLoader, (1 : Mat4))] (by simp)
    (by simp [emptyLoader])

/-- The OBJ-loader result of a mesh with 5 vertices, 10 indices and no
textures (the scenario mesh of the specification). -/
def smallLoader : ObjLoaderOut :=
  ⟨[(0, 0, 0), (1, 0, 0), (0, 1, 0), (0, 0, 1), (1, 1, 0)],
   [0, 1, 2, 0, 2, 3, 0, 3, 4, 1], [], [], []⟩

/-- C8: every `loadModel` call appends exactly one model and exactly one
instance, with the instance's `objIndex` equal to the model-sequence length
before the append (hence always a valid model index when the prior instances
were valid), its stored inverse-transpose equal to
`transpose(invert(transform))`, and `objIndex = 0` for the first loaded
model. -/
theorem loadModel_appends (decode : String → Option (Nat × Nat × List Pixel))
    (s : HV) (loader : ObjLoaderOut) (transform : Mat4) :
    ((loadModel decode s loader transform).objModel
        = s.objModel ++ [⟨loader.indices.length, loader.vertices.length,
            s.allocNext, s.allocNext + 1, s.allocNext + 2, s.allocNext + 3⟩]) ∧
    ((loadModel decode s loader transform).objModel.length = s.objModel.length + 1) ∧
    ((loadModel decode s loader transform).objInstance
        = s.objInstance ++ [⟨s.objModel.length, transform,
            (invert transform).transpose, s.textures.length⟩]) ∧
    ((loadModel decode s loader transform).objInstance.length
        = s.objInstance.length + 1) ∧
    ((∀ i ∈ s.objInstance, i.objIndex < s.objModel.length) →
      ∀ i ∈ (loadModel decode s loader transform).objInstance,
        i.objIndex < (loadModel decode s loader transform).objModel.length) ∧
    (s.objModel = [] →
      (loadModel decode s loader transform).objInstance
        = s.objInstance ++ [⟨0, transform, (invert transform).transpose,
            s.textures.length⟩]) := by
  refine ⟨rfl, by simp [loadModel], rfl, by simp [loadModel], ?_, ?_⟩
  · intro hv i hi
    simp only [loadModel, List.mem_append, List.mem_singleton] at hi
    rcases hi with hi | hi
    · have hlt := hv i hi
      simp only [loadModel, List.length_append, List.length_singleton]
      omega
    · subst hi
      simp [loadModel]
  · intro h
    simp [loadModel, h]

/-- Witness for C8: loading the 5-vertex/10-index no-texture mesh into the
fresh scene yields a sole instance with `objIndex = 0`, valid for the
one-model sequence. -/
theorem loadModel_appends_witness :
    (∀ i ∈ (loadModel decodeNone hvInit smallLoader 1).objInstance,
        i.objIndex < (loadModel decodeNone hvInit smallLoader 1).objModel.length) ∧
    (loadModel decodeNone hvInit smallLoader 1).objInstance
        = hvInit.objInstance ++ [⟨0, 1, (invert 1).transpose, 0⟩] :=
  ⟨(loadModel_appends decodeNone hvInit smallLoader 1).2.2.2.2.1 (by simp [hvInit]),
   (loadModel_appends decodeNone hvInit smallLoader 1).2.2.2.2.2 rfl⟩

/-! ## Claim theorems: teardown order -/

lemma foldl_append_eq {β : Type} (g : β → List Resource) (l : List β)
    (acc : List Resource) :
    l.foldl (fun a m => a ++ g m) acc = acc ++ (l.map g).flatten := by
  induction l generalizing acc with
  | nil => simp
  | cons x xs ih => simp [List.foldl, ih]

/-- The per-model buffer-release events of `destroyResources`. -/
def modelDestroyEvents (m : ObjModel) : List Resource :=
  [Resource.buffer m.vertexBuffer, Resource.buffer m.indexBuffer,
   Resource.buffer m.matColorBuffer, Resource.buffer m.matIndexBuffer]

lemma destroyResources_eq (s : HV) :
    destroyResources s =
      [Resource.pipeline, Resource.pipelineLayout, Resource.descPool, Resource.descSetLayout]
      ++ ([Resource.buffer s.cameraMat, Resource.buffer s.sceneDesc,
           Resource.buffer s.implObjects.implBuf, Resource.buffer s.implObjects.implMatBuf]
          ++ (s.objModel.map (fun m => modelDestroyEvents m)).flatten)
      ++ ((s.textures.map (fun t => [Resource.image t.id])).flatten
          ++ [Resource.offscreenTeardown, Resource.raytraceTeardown]) := by
  simp only [destroyResources, modelDestroyEvents,
    foldl_append_eq (fun m : ObjModel => [Resource.buffer m.vertexBuffer,
      Resource.buffer m.indexBuffer, Resource.buffer m.matColorBuffer,
      Resource.buffer m.matIndexBuffer]),
    foldl_append_eq (fun t : Texture => [Resource.image t.id])]
  simp [List.append_assoc, modelDestroyEvents]

lemma eventsBefore_of_split (p q : Resource → Bool) (l1 l2 : List Resource)
    (hp : ∀ x ∈ l2, p x = false) (hq : ∀ x ∈ l1, q x = false) :
    eventsBefore p q (l1 ++ l2) := by
  intro i j hpi hqj
  have hilen : (i : Nat) < l1.length + l2.length := by
    simpa [List.length_append] using i.isLt
  have hjlen : (j : Nat) < l1.length + l2.length := by
    simpa [List.length_append] using j.isLt
  have hi : (i : Nat) < l1.length := by
    by_contra hge
    have hsub : (i : Nat) - l1.length < l2.length := by omega
    have heq : (l1 ++ l2).get i = l2.get ⟨(i : Nat) - l1.length, hsub⟩ := by
      rw [List.get_eq_getElem, List.get_eq_getElem]
      exact List.getElem_append_right (Nat.le_of_not_lt hge)
    have hmem : (l1 ++ l2).get i ∈ l2 := by
      rw [heq]
      exact List.get_mem _ _ _
    rw [hp _ hmem] at hpi
    exact Bool.false_ne_true hpi
  have hj : l1.length ≤ (j : Nat) := by
    by_contra hlt
    have hlt2 : (j : Nat) < l1.length := Nat.lt_of_not_le hlt
    have heq : (l1 ++ l2).get j = l1.get ⟨(j : Nat), hlt2⟩ := by
      rw [List.get_eq_getElem, List.get_eq_getElem]
      exact List.getElem_append_left hlt2
    have hmem : (l1 ++ l2).get j ∈ l1 := by
      rw [heq]
      exact List.get_mem _ _ _
    rw [hq _ hmem] at hqj
    exact Bool.false_ne_true hqj
  omega

lemma mem_model_events {x : Resource} {models : List ObjModel}
    (hx : x ∈ (models.map (fun m => modelDestroyEvents m)).flatten) :
    ∃ b, x = Resource.buffer b := by
  rw [List.mem_flatten] at hx
  obtain ⟨l, hl, hxl⟩ := hx
  rw [List.mem_map] at hl
  obtain ⟨mm, hmm, rfl⟩ := hl
  simp only [modelDestroyEvents, List.mem_cons, List.not_mem_nil, or_false] at hxl
  rcases hxl with h | h | h | h <;> exact ⟨_, h⟩

lemma mem_texture_events {x : Resource} {ts : List Texture}
    (hx : x ∈ (ts.map (fun t => [Resource.image t.id])).flatten) :
    ∃ b, x = Resource.image b := by
  rw [List.mem_flatten] at hx
  obtain ⟨l, hl, hxl⟩ := hx
  rw [List.mem_map] at hl
  obtain ⟨t, ht, rfl⟩ := hl
  simp only [List.mem_cons, List.not_mem_nil, or_false] at hxl
  exact ⟨_, hxl⟩

/-- A scene with one loaded model and one texture, used as the teardown
counterexample input. -/
def teardownScene : HV :=
  ⟨8, [⟨6, 4, 0, 1, 2, 3⟩], [], [dummyTexture 4], ⟨[], [], 5, 6⟩, 7, 7⟩

/-- Counterexample to C10: `destroyResources` does not release every layout
before every pool — the descriptor-set layout (a layout) is destroyed after
the descriptor pool — so the claimed order pipeline → layouts → pools →
buffers → images fails on the code at this one-model one-texture scene. -/
theorem destroyResources_order_cex :
    ¬ specTeardownOrder (destroyResources teardownScene) := by
  decide

/-- C10 (amended): `destroyResources` releases the graphics pipeline first,
then the pipeline layout, then the descriptor pool, then the descriptor-set
layout (after the pool, not before it), then all buffers, then all texture
images. -/
theorem destroyResources_order (s : HV) :
    ((destroyResources s).take 4
        = [Resource.pipeline, Resource.pipelineLayout, Resource.descPool,
           Resource.descSetLayout]) ∧
    eventsBefore isLayoutRes isBufferRes (destroyResources s) ∧
    eventsBefore isPoolRes isBufferRes (destroyResources s) ∧
    eventsBefore isLayoutRes isImageRes (destroyResources s) ∧
    eventsBefore isPoolRes isImageRes (destroyResources s) ∧
    eventsBefore isBufferRes isImageRes (destroyResources s) := by
  rw [destroyResources_eq]
  have hbufs : ∀ x ∈
      ([Resource.buffer s.cameraMat, Resource.buffer s.sceneDesc,
        Resource.buffer s.implObjects.implBuf, Resource.buffer s.implObjects.implMatBuf]
        ++ (s.objModel.map (fun m => modelDestroyEvents m)).flatten),
      ∃ b, x = Resource.buffer b := by
    intro x hx
    rw [List.mem_append] at hx
    rcases hx with hx | hx
    · simp only [List.mem_cons, List.not_mem_nil, or_false] at hx
      rcases hx with h | h | h | h <;> exact ⟨_, h⟩
    · exact mem_model_events hx
  have htail : ∀ x ∈
      ((s.textures.map (fun t => [Resource.image t.id])).flatten
        ++ [Resource.offscreenTeardown, Resource.raytraceTeardown]),
      (∃ b, x = Resource.image b) ∨ x = Resource.offscreenTeardown
        ∨ x = Resource.raytraceTeardown := by
    intro x hx
    rw [List.mem_append] at hx
    rcases hx with hx | hx
    · exact Or.inl (mem_texture_events hx)
    · simp only [List.mem_cons, List.not_mem_nil, or_false] at hx
      tauto
  refine ⟨rfl, ?_, ?_, ?_, ?_, ?_⟩
  · rw [List.append_assoc]
    refine eventsBefore_of_split _ _ _ _ ?_ ?_
    · intro x hx
      rw [List.mem_append] at hx
      rcases hx with hx | hx
      · obtain ⟨b, rfl⟩ := hbufs x hx
        rfl
      · rcases htail x hx with ⟨b, rfl⟩ | rfl | rfl <;> rfl
    · intro x hx
      fin_cases hx <;> rfl
  · rw [List.append_assoc]
    refine eventsBefore_of_split _ _ _ _ ?_ ?_
    · intro x hx
      rw [List.mem_append] at hx
      rcases hx with hx | hx
      · obtain ⟨b, rfl⟩ := hbufs x hx
        rfl
      · rcases htail x hx with ⟨b, rfl⟩ | rfl | rfl <;> rfl
    · intro x hx
      fin_cases hx <;> rfl
  · rw [List.append_assoc]
    refine eventsBefore_of_split _ _ _ _ ?_ ?_
    · intro x hx
      rw [List.mem_append] at hx
      rcases hx with hx | hx
      · obtain ⟨b, rfl⟩ := hbufs x hx
        rfl
      · rcases htail x hx with ⟨b, rfl⟩ | rfl | rfl <;> rfl
    · intro x hx
      fin_cases hx <;> rfl
  · rw [List.append_assoc]
    refine eventsBefore_of_split _ _ _ _ ?_ ?_
    · intro x hx
      rw [List.mem_append] at hx
      rcases hx with hx | hx
      · obtain ⟨b, rfl⟩ := hbufs x hx
        rfl
      · rcases htail x hx with ⟨b, rfl⟩ | rfl | rfl <;> rfl
    · intro x hx
      fin_cases hx <;> rfl
  · refine eventsBefore_of_split _ _ _ _ ?_ ?_
    · intro x hx
      rcases htail x hx with ⟨b, rfl⟩ | rfl | rfl <;> rfl
    · intro x hx
      rw [List.mem_append] at hx
      rcases hx with hx | hx
      · fin_cases hx <;> rfl
      · obtain ⟨b, rfl⟩ := hbufs x hx
        rfl

end HelloVulkan
